import Mathlib

/-!
Verification of the PyTradeLib core data model (pytradelib/bar.py).

Shallow embedding conventions:
- Python floats are embedded as exact rationals (ℚ); the code only ever
  multiplies, divides and compares prices.
- datetime.datetime values are embedded as integer time points; the code
  only ever compares datetimes for equality.
- Python exceptions are embedded as Except errors; a raising operation
  returns Except, a total one returns its value directly.
- Python dicts are embedded as association lists in iteration order, with
  first-position lookup (the dicts handled here never hold duplicate keys).
-/

namespace PyTradeLib

/-- Timestamps: datetime.datetime embedded as an integer time point. -/
abbrev DateTime := Int

/-- Python dict lookup, d.get(a): first matching key wins. -/
def dictGet [DecidableEq α] (a : α) : List (α × β) → Option β
  | [] => none
  | (k, v) :: rest => if k = a then some v else dictGet a rest

/-! ### Frequency -/

/-- The Python values used as frequency tokens: sub-day tokens are the
ints 1, 5, 10, 15, 30, 60 (minutes) and Day/Week/Month are the one-letter
strings d, w, m. -/
abbrev FreqVal := Sum Nat String

namespace Frequency

def MINUTE : FreqVal := Sum.inl 1

def FIVE : FreqVal := Sum.inl 5

def TEN : FreqVal := Sum.inl 10

def FIFTEEN : FreqVal := Sum.inl 15

def THIRTY : FreqVal := Sum.inl 30

def HOUR : FreqVal := Sum.inl 60

def DAY : FreqVal := Sum.inr "d"

def WEEK : FreqVal := Sum.inr "w"

def MONTH : FreqVal := Sum.inr "m"

end Frequency

/-- The FrequencyToStr dict, in source order. -/
def FrequencyToStr : List (FreqVal × String) :=
  [(Frequency.MINUTE, "minute"),
   (Frequency.FIVE, "five-minute"),
   (Frequency.TEN, "ten-minute"),
   (Frequency.FIFTEEN, "fifteen-minute"),
   (Frequency.THIRTY, "thirty-minute"),
   (Frequency.HOUR, "hour"),
   (Frequency.DAY, "day"),
   (Frequency.WEEK, "week"),
   (Frequency.MONTH, "month")]

/-- StrToFrequency = dict(zip(FrequencyToStr.values(), FrequencyToStr.keys())). -/
def StrToFrequency : List (String × FreqVal) :=
  FrequencyToStr.map (fun p => (p.2, p.1))

/-- name_of: FrequencyToStr[t] (None models the KeyError path). -/
def freqName (t : FreqVal) : Option String := dictGet t FrequencyToStr

/-- token_of: StrToFrequency[name] (None models the KeyError path). -/
def freqToken (s : String) : Option FreqVal := dictGet s StrToFrequency

/-! ### Bar -/

/-- One OHLCV observation; fields in the assignment order of
Bar.__init__. -/
structure Bar where
  date_time : DateTime
  open_ : ℚ
  close : ℚ
  high : ℚ
  low : ℚ
  volume : ℚ
  adj_close : ℚ
  session_close : Bool
  bars_until_session_close : Option Int
  deriving DecidableEq

def Bar.get_date_time (b : Bar) : DateTime := b.date_time

def Bar.get_open (b : Bar) : ℚ := b.open_

def Bar.get_high (b : Bar) : ℚ := b.high

def Bar.get_low (b : Bar) : ℚ := b.low

def Bar.get_close (b : Bar) : ℚ := b.close

def Bar.get_volume (b : Bar) : ℚ := b.volume

def Bar.get_adj_close (b : Bar) : ℚ := b.adj_close

def Bar.get_session_close (b : Bar) : Bool := b.session_close

def Bar.get_bars_until_session_close (b : Bar) : Option Int :=
  b.bars_until_session_close

/-- Rendering of a rational price, standing in for the %.2f / %i float
formatting of Bar.__str__ (prices are embedded as exact rationals, so the
decimal formatting is abstracted to a canonical rendering). -/
def ratStr (q : ℚ) : String :=
  if q.den = 1 then toString q.num else toString q.num ++ "/" ++ toString q.den

/-- Models Bar.__str__: DT, O, H, L, C, V in that order, rendered from the
bar's fields (strftime and decimal formatting abstracted, see ratStr). -/
def Bar.toStr (b : Bar) : String :=
  "DT: " ++ toString b.date_time ++ ", O: " ++ ratStr b.open_ ++
    ", H: " ++ ratStr b.high ++ ", L: " ++ ratStr b.low ++
    ", C: " ++ ratStr b.close ++ ", V: " ++ ratStr b.volume

/-- The Bar value as it stands after the field assignments at the top of
Bar.__init__, before validation: session_close is False and
bars_until_session_close is None. -/
def Bar.attempt (date_time : DateTime) (open_ high low close volume adj_close : ℚ) : Bar :=
  { date_time := date_time, open_ := open_, close := close, high := high,
    low := low, volume := volume, adj_close := adj_close,
    session_close := false, bars_until_session_close := none }

/-- Models Bar.__init__: assign all fields, then run the six ordering
checks; each failed check appends its message, annotated with the string
rendering of the attempted bar, to an accumulator, and a nonempty
accumulator raises one AssertionError joining the messages with newlines. -/
def Bar.make (date_time : DateTime) (open_ high low close volume adj_close : ℚ) :
    Except String Bar :=
  let self := Bar.attempt date_time open_ high low close volume adj_close
  let bar_assert := fun (errors : List String) (comparison : Bool) (msg : String) =>
    if comparison then errors else errors ++ [msg ++ " (" ++ self.toStr ++ ")"]
  let errors : List String := []
  let errors := bar_assert errors (decide (high ≥ open_)) "(H)igh !>= (O)pen."
  let errors := bar_assert errors (decide (high ≥ low)) "(H)igh !>= (L)ow."
  let errors := bar_assert errors (decide (high ≥ close)) "(H)igh !>= (C)lose."
  let errors := bar_assert errors (decide (low ≤ open_)) "(L)ow !<= (O)open."
  let errors := bar_assert errors (decide (low ≤ high)) "(L)ow !<= (H)igh."
  let errors := bar_assert errors (decide (low ≤ close)) "(L)ow !<= (C)lose."
  if errors = [] then Except.ok self
  else Except.error (String.intercalate "\n" errors)

/-- Error of the derived adjusted-price computation: Python raises
ZeroDivisionError when close is 0 (the spec's UndefinedAdjustment kind);
it is made explicit here because division on ℚ is total. -/
inductive AdjError where
  | zeroDivisionError
  deriving DecidableEq

/-- Models get_adj_open: adj_close * open / float(close). -/
def Bar.get_adj_open (b : Bar) : Except AdjError ℚ :=
  if b.close = 0 then Except.error AdjError.zeroDivisionError
  else Except.ok (b.adj_close * b.open_ / b.close)

/-- Models get_adj_high: adj_close * high / float(close). -/
def Bar.get_adj_high (b : Bar) : Except AdjError ℚ :=
  if b.close = 0 then Except.error AdjError.zeroDivisionError
  else Except.ok (b.adj_close * b.high / b.close)

/-- Models get_adj_low: adj_close * low / float(close). -/
def Bar.get_adj_low (b : Bar) : Except AdjError ℚ :=
  if b.close = 0 then Except.error AdjError.zeroDivisionError
  else Except.ok (b.adj_close * b.low / b.close)

/-- Models set_session_close: set the flag; if it is true, also reset
bars_until_session_close to 0. -/
def Bar.set_session_close (b : Bar) (session_close : Bool) : Bar :=
  let b := { b with session_close := session_close }
  if session_close then { b with bars_until_session_close := some 0 } else b

/-- Models set_bars_until_session_close: set the countdown field (Python
callers pass an int, embedded as some n over the optional field). -/
def Bar.set_bars_until_session_close (b : Bar) (bars_until_session_close : Int) : Bar :=
  { b with bars_until_session_close := some bars_until_session_close }

/-- A Python value as seen by Bar.__eq__ / Bar.__ne__: either a Bar, or
any non-Bar object (abstracted by a tag), for the isinstance check. -/
inductive PyVal where
  | bar (b : Bar)
  | nonBar (tag : String)
  deriving DecidableEq

/-- Models Bar.__eq__: False for non-Bar operands, then field-by-field
comparison of the seven price/time fields. -/
def Bar.eqPy (self : Bar) : PyVal → Bool
  | PyVal.nonBar _ => false
  | PyVal.bar other =>
    if self.get_date_time ≠ other.get_date_time then false
    else if self.get_open ≠ other.get_open then false
    else if self.get_high ≠ other.get_high then false
    else if self.get_low ≠ other.get_low then false
    else if self.get_close ≠ other.get_close then false
    else if self.get_volume ≠ other.get_volume then false
    else if self.get_adj_close ≠ other.get_adj_close then false
    else true

/-- Models Bar.__ne__: not self.__eq__(other). -/
def Bar.nePy (self : Bar) (other : PyVal) : Bool := !(self.eqPy other)

/-! ### Bars -/

/-- Errors raised by Bars.__init__. -/
inductive BarsError where
  | noBars
  | notInSync (symbol : String) (dt : DateTime) (first_symbol : String) (first_dt : DateTime)
  deriving DecidableEq

/-- A validated group of bars: the symbol dict and the shared timestamp. -/
structure Bars where
  bar_dict : List (String × Bar)
  date_time : DateTime
  deriving DecidableEq

/-- The loop of Bars.__init__ after the first entry fixed the reference
symbol and timestamp: the first later entry whose bar's datetime differs
raises, carrying both symbols and both timestamps. -/
def checkSync (first_symbol : String) (first_dt : DateTime) :
    List (String × Bar) → Option BarsError
  | [] => none
  | (symbol, current_bar) :: rest =>
    if current_bar.get_date_time ≠ first_dt then
      some (BarsError.notInSync symbol current_bar.get_date_time first_symbol first_dt)
    else checkSync first_symbol first_dt rest

/-- Models Bars.__init__ over the dict entries in iteration order: empty
input raises, otherwise the first entry's datetime is the reference and
every later entry must match it. -/
def Bars.make (bar_dict : List (String × Bar)) : Except BarsError Bars :=
  match bar_dict with
  | [] => Except.error BarsError.noBars
  | (first_symbol, first_bar) :: rest =>
    match checkSync first_symbol first_bar.get_date_time rest with
    | some e => Except.error e
    | none =>
      Except.ok { bar_dict := (first_symbol, first_bar) :: rest,
                  date_time := first_bar.get_date_time }

/-- The KeyError raised by Bars.__getitem__ on an absent symbol. -/
inductive KeyErr where
  | keyError (symbol : String)
  deriving DecidableEq

/-- Models Bars.__getitem__: the stored Bar, or KeyError if absent. -/
def Bars.getItem (bs : Bars) (symbol : String) : Except KeyErr Bar :=
  match dictGet symbol bs.bar_dict with
  | some b => Except.ok b
  | none => Except.error (KeyErr.keyError symbol)

/-- Models Bars.__contains__. -/
def Bars.containsSym (bs : Bars) (symbol : String) : Bool :=
  (dictGet symbol bs.bar_dict).isSome

/-- Models Bars.get_symbols: the dict's keys. -/
def Bars.get_symbols (bs : Bars) : List String := bs.bar_dict.map Prod.fst

/-- Models Bars.get_date_time. -/
def Bars.get_date_time (bs : Bars) : DateTime := bs.date_time

/-- Models Bars.get_bar: dict.get(symbol, None). -/
def Bars.get_bar (bs : Bars) (symbol : String) : Option Bar :=
  dictGet symbol bs.bar_dict

/-! ### Spec-side definitions -/

/-- Spec side (claim C1): the six invariant messages in the spec's fixed
order H≥O, H≥L, H≥C, L≤O, L≤H, L≤C, keeping exactly the violated ones. -/
def violatedMsgs (open_ high low close : ℚ) : List String :=
  (if high ≥ open_ then [] else ["(H)igh !>= (O)pen."]) ++
  (if high ≥ low then [] else ["(H)igh !>= (L)ow."]) ++
  (if high ≥ close then [] else ["(H)igh !>= (C)lose."]) ++
  (if low ≤ open_ then [] else ["(L)ow !<= (O)open."]) ++
  (if low ≤ high then [] else ["(L)ow !<= (H)igh."]) ++
  (if low ≤ close then [] else ["(L)ow !<= (C)lose."])

/-- A concrete bar used by the witness theorems. -/
def sampleBar (dt : DateTime) : Bar :=
  { date_time := dt, open_ := 1, close := 1, high := 1, low := 1, volume := 100,
    adj_close := 2, session_close := false, bars_until_session_close := none }

/-- A concrete bar with zero close used by the witness theorems. -/
def zeroCloseBar : Bar :=
  { date_time := 0, open_ := 0, close := 0, high := 0, low := 0, volume := 100,
    adj_close := 2, session_close := false, bars_until_session_close := none }

/-! ### Helper lemmas -/

theorem checkSync_eq_none (first_symbol : String) (first_dt : DateTime)
    (l : List (String × Bar)) (h : ∀ p ∈ l, p.2.get_date_time = first_dt) :
    checkSync first_symbol first_dt l = none := by
  induction l with
  | nil => rfl
  | cons p rest ih =>
    obtain ⟨symbol, b⟩ := p
    have hb : b.get_date_time = first_dt := h (symbol, b) (List.mem_cons_self _ _)
    have hr : ∀ q ∈ rest, q.2.get_date_time = first_dt :=
      fun q hq => h q (List.mem_cons_of_mem _ hq)
    simp [checkSync, hb, ih hr]

theorem checkSync_first_mismatch (first_symbol : String) (first_dt : DateTime)
    (pre : List (String × Bar)) (symbol : String) (b : Bar) (post : List (String × Bar))
    (hpre : ∀ p ∈ pre, p.2.get_date_time = first_dt)
    (hb : b.get_date_time ≠ first_dt) :
    checkSync first_symbol first_dt (pre ++ (symbol, b) :: post) =
      some (BarsError.notInSync symbol b.get_date_time first_symbol first_dt) := by
  induction pre with
  | nil => simp [checkSync, hb]
  | cons p rest ih =>
    obtain ⟨s, pb⟩ := p
    have hpb : pb.get_date_time = first_dt := hpre (s, pb) (List.mem_cons_self _ _)
    have hr : ∀ q ∈ rest, q.2.get_date_time = first_dt :=
      fun q hq => hpre q (List.mem_cons_of_mem _ hq)
    simp [checkSync, hpb, ih hr]

theorem dictGet_mem [DecidableEq α] (a : α) (b : β) (l : List (α × β))
    (h : dictGet a l = some b) : (a, b) ∈ l := by
  induction l with
  | nil => simp [dictGet] at h
  | cons p rest ih =>
    obtain ⟨k, v⟩ := p
    by_cases hk : k = a
    · subst hk
      simp [dictGet] at h
      simp [h]
    · simp [dictGet, hk] at h
      exact List.mem_cons_of_mem _ (ih h)

theorem dictGet_eq_none_iff [DecidableEq α] (a : α) (l : List (α × β)) :
    dictGet a l = none ↔ a ∉ l.map Prod.fst := by
  induction l with
  | nil => simp [dictGet]
  | cons p rest ih =>
    obtain ⟨k, v⟩ := p
    by_cases hk : k = a
    · subst hk
      simp [dictGet]
    · simp [dictGet, hk, Ne.symm hk, ih]

/-! ### Claims -/

/-- Claim C1: whenever at least one of the six ordering invariants is
violated, Bar construction fails with a single validation error whose
message lists exactly the violated conditions, in the fixed order H≥O,
H≥L, H≥C, L≤O, L≤H, L≤C, each annotated with the string rendering of the
attempted bar, joined into one message. -/
theorem bar_make_reports_exact_violations
    (date_time : DateTime) (open_ high low close volume adj_close : ℚ)
    (hviol : ¬(high ≥ open_ ∧ high ≥ low ∧ high ≥ close ∧
               low ≤ open_ ∧ low ≤ high ∧ low ≤ close)) :
    Bar.make date_time open_ high low close volume adj_close =
      Except.error (String.intercalate "\n"
        ((violatedMsgs open_ high low close).map
          (fun m => m ++ " (" ++
            (Bar.attempt date_time open_ high low close volume adj_close).toStr ++ ")"))) := by
  by_cases h1 : high ≥ open_ <;> by_cases h2 : high ≥ low <;> by_cases h3 : high ≥ close <;>
    by_cases h4 : low ≤ open_ <;> by_cases h5 : low ≤ high <;> by_cases h6 : low ≤ close <;>
    (try simp [Bar.make, violatedMsgs, h1, h2, h3, h4, h5, h6, String.intercalate]) <;>
    first
      | exact h5 h2
      | exact hviol ⟨h1, h2, h3, h4, h5, h6⟩

/-- Witness for C1: open=10, high=5, low=1, close=8 violates H≥O and H≥C. -/
theorem bar_make_reports_exact_violations_witness :
    ¬((5:ℚ) ≥ 10 ∧ (5:ℚ) ≥ 1 ∧ (5:ℚ) ≥ 8 ∧ (1:ℚ) ≤ 10 ∧ (1:ℚ) ≤ 5 ∧ (1:ℚ) ≤ 8) ∧
    Bar.make 0 10 5 1 8 100 8 =
      Except.error (String.intercalate "\n"
        ((violatedMsgs 10 5 1 8).map
          (fun m => m ++ " (" ++ (Bar.attempt 0 10 5 1 8 100 8).toStr ++ ")"))) :=
  ⟨by decide, bar_make_reports_exact_violations 0 10 5 1 8 100 8 (by decide)⟩

/-- Claim C2: when all six ordering rules hold, construction succeeds, the
accessors return exactly the supplied values, and the new bar has
session_close false and bars_until_session_close unset. -/
theorem bar_make_valid_accessors
    (date_time : DateTime) (open_ high low close volume adj_close : ℚ)
    (hvalid : high ≥ open_ ∧ high ≥ low ∧ high ≥ close ∧
              low ≤ open_ ∧ low ≤ high ∧ low ≤ close) :
    Bar.make date_time open_ high low close volume adj_close =
      Except.ok (Bar.attempt date_time open_ high low close volume adj_close) ∧
    (Bar.attempt date_time open_ high low close volume adj_close).get_date_time = date_time ∧
    (Bar.attempt date_time open_ high low close volume adj_close).get_open = open_ ∧
    (Bar.attempt date_time open_ high low close volume adj_close).get_high = high ∧
    (Bar.attempt date_time open_ high low close volume adj_close).get_low = low ∧
    (Bar.attempt date_time open_ high low close volume adj_close).get_close = close ∧
    (Bar.attempt date_time open_ high low close volume adj_close).get_volume = volume ∧
    (Bar.attempt date_time open_ high low close volume adj_close).get_adj_close = adj_close ∧
    (Bar.attempt date_time open_ high low close volume adj_close).get_session_close = false ∧
    (Bar.attempt date_time open_ high low close volume adj_close).get_bars_until_session_close
      = none := by
  obtain ⟨h1, h2, h3, h4, h5, h6⟩ := hvalid
  refine ⟨?_, rfl, rfl, rfl, rfl, rfl, rfl, rfl, rfl, rfl⟩
  simp [Bar.make, h1, h2, h3, h4, h5, h6]

/-- Witness for C2 at a concrete valid tuple. -/
theorem bar_make_valid_accessors_witness :
    ((2:ℚ) ≥ 1 ∧ (2:ℚ) ≥ 0 ∧ (2:ℚ) ≥ 1 ∧ (0:ℚ) ≤ 1 ∧ (0:ℚ) ≤ 2 ∧ (0:ℚ) ≤ 1) ∧
    (Bar.make 7 1 2 0 1 100 3 = Except.ok (Bar.attempt 7 1 2 0 1 100 3) ∧
     (Bar.attempt 7 1 2 0 1 100 3).get_date_time = 7 ∧
     (Bar.attempt 7 1 2 0 1 100 3).get_open = 1 ∧
     (Bar.attempt 7 1 2 0 1 100 3).get_high = 2 ∧
     (Bar.attempt 7 1 2 0 1 100 3).get_low = 0 ∧
     (Bar.attempt 7 1 2 0 1 100 3).get_close = 1 ∧
     (Bar.attempt 7 1 2 0 1 100 3).get_volume = 100 ∧
     (Bar.attempt 7 1 2 0 1 100 3).get_adj_close = 3 ∧
     (Bar.attempt 7 1 2 0 1 100 3).get_session_close = false ∧
     (Bar.attempt 7 1 2 0 1 100 3).get_bars_until_session_close = none) :=
  ⟨by decide, bar_make_valid_accessors 7 1 2 0 1 100 3 (by decide)⟩

/-- Claim C3: for a non-empty symbol-to-Bar mapping, if every bar carries
the first bar's timestamp then construction succeeds and exposes that
shared timestamp; if a later entry disagrees and every entry before it
agrees, construction fails at that first mismatch with an error naming
both symbols and both timestamps. -/
theorem bars_make_sync (first_symbol : String) (first_bar : Bar)
    (rest : List (String × Bar)) :
    ((∀ p ∈ rest, p.2.get_date_time = first_bar.get_date_time) →
      Bars.make ((first_symbol, first_bar) :: rest) =
        Except.ok { bar_dict := (first_symbol, first_bar) :: rest,
                    date_time := first_bar.get_date_time }) ∧
    (∀ pre symbol b post, rest = pre ++ (symbol, b) :: post →
      (∀ p ∈ pre, p.2.get_date_time = first_bar.get_date_time) →
      b.get_date_time ≠ first_bar.get_date_time →
      Bars.make ((first_symbol, first_bar) :: rest) =
        Except.error (BarsError.notInSync symbol b.get_date_time
          first_symbol first_bar.get_date_time)) := by
  constructor
  · intro h
    simp [Bars.make, checkSync_eq_none first_symbol first_bar.get_date_time rest h]
  · intro pre symbol b post hrest hpre hb
    subst hrest
    simp [Bars.make,
      checkSync_first_mismatch first_symbol first_bar.get_date_time pre symbol b post hpre hb]

/-- Witness for C3: a synchronized pair succeeds; a desynchronized pair
fails naming both symbols and both timestamps. -/
theorem bars_make_sync_witness :
    ((∀ p ∈ [("MSFT", sampleBar 1)], p.2.get_date_time = (sampleBar 1).get_date_time) ∧
     Bars.make [("AAPL", sampleBar 1), ("MSFT", sampleBar 1)] =
       Except.ok { bar_dict := [("AAPL", sampleBar 1), ("MSFT", sampleBar 1)],
                   date_time := (sampleBar 1).get_date_time }) ∧
    ((sampleBar 2).get_date_time ≠ (sampleBar 1).get_date_time ∧
     Bars.make [("AAPL", sampleBar 1), ("MSFT", sampleBar 2)] =
       Except.error (BarsError.notInSync "MSFT" (sampleBar 2).get_date_time
         "AAPL" (sampleBar 1).get_date_time)) :=
  ⟨⟨by decide, (bars_make_sync "AAPL" (sampleBar 1) [("MSFT", sampleBar 1)]).1 (by decide)⟩,
   ⟨by decide, (bars_make_sync "AAPL" (sampleBar 1) [("MSFT", sampleBar 2)]).2
      [] "MSFT" (sampleBar 2) [] rfl (by decide) (by decide)⟩⟩

/-- Claim C4: with close ≠ 0, adj_open/adj_high/adj_low return exactly
adj_close * raw / close; with close = 0 each raises the division error
(the spec's UndefinedAdjustment kind). -/
theorem bar_adj_prices (b : Bar) :
    (b.get_close ≠ 0 →
      b.get_adj_open = Except.ok (b.get_adj_close * b.get_open / b.get_close) ∧
      b.get_adj_high = Except.ok (b.get_adj_close * b.get_high / b.get_close) ∧
      b.get_adj_low = Except.ok (b.get_adj_close * b.get_low / b.get_close)) ∧
    (b.get_close = 0 →
      b.get_adj_open = Except.error AdjError.zeroDivisionError ∧
      b.get_adj_high = Except.error AdjError.zeroDivisionError ∧
      b.get_adj_low = Except.error AdjError.zeroDivisionError) := by
  constructor <;> intro h <;>
    simp_all [Bar.get_adj_open, Bar.get_adj_high, Bar.get_adj_low, Bar.get_close,
      Bar.get_adj_close, Bar.get_open, Bar.get_high, Bar.get_low]

/-- Witness for C4 at a nonzero-close bar and a zero-close bar. -/
theorem bar_adj_prices_witness :
    ((sampleBar 0).get_close ≠ 0 ∧
     ((sampleBar 0).get_adj_open =
        Except.ok ((sampleBar 0).get_adj_close * (sampleBar 0).get_open / (sampleBar 0).get_close) ∧
      (sampleBar 0).get_adj_high =
        Except.ok ((sampleBar 0).get_adj_close * (sampleBar 0).get_high / (sampleBar 0).get_close) ∧
      (sampleBar 0).get_adj_low =
        Except.ok ((sampleBar 0).get_adj_close * (sampleBar 0).get_low / (sampleBar 0).get_close))) ∧
    (zeroCloseBar.get_close = 0 ∧
     (zeroCloseBar.get_adj_open = Except.error AdjError.zeroDivisionError ∧
      zeroCloseBar.get_adj_high = Except.error AdjError.zeroDivisionError ∧
      zeroCloseBar.get_adj_low = Except.error AdjError.zeroDivisionError)) :=
  ⟨⟨by decide, (bar_adj_prices (sampleBar 0)).1 (by decide)⟩,
   ⟨rfl, (bar_adj_prices zeroCloseBar).2 rfl⟩⟩

/-- Claim C5: set_session_close true sets the flag and forces the
countdown to 0; set_session_close false clears the flag and leaves the
countdown unchanged; set_bars_until_session_close sets the countdown and
leaves the flag unchanged. -/
theorem bar_session_mutators (b : Bar) (n : Int) :
    (b.set_session_close true).get_session_close = true ∧
    (b.set_session_close true).get_bars_until_session_close = some 0 ∧
    (b.set_session_close false).get_session_close = false ∧
    (b.set_session_close false).get_bars_until_session_close =
      b.get_bars_until_session_close ∧
    (b.set_bars_until_session_close n).get_bars_until_session_close = some n ∧
    (b.set_bars_until_session_close n).get_session_close = b.get_session_close :=
  ⟨rfl, rfl, rfl, rfl, rfl, rfl⟩

/-- Claim C6: two Bars compare equal exactly when their seven price/time
fields agree; the two session fields have no effect on equality. -/
theorem bar_eq_iff_fields (a b : Bar) (sc : Bool) (n : Option Int) :
    (a.eqPy (PyVal.bar b) = true ↔
      (a.get_date_time = b.get_date_time ∧ a.get_open = b.get_open ∧
       a.get_high = b.get_high ∧ a.get_low = b.get_low ∧
       a.get_close = b.get_close ∧ a.get_volume = b.get_volume ∧
       a.get_adj_close = b.get_adj_close)) ∧
    a.eqPy (PyVal.bar { b with session_close := sc, bars_until_session_close := n }) =
      a.eqPy (PyVal.bar b) := by
  constructor
  · simp only [Bar.eqPy]
    split_ifs <;> simp_all
  · rfl

/-- Claim C7: constructing Bars from a mapping with zero entries always
fails with the empty-input error. -/
theorem bars_make_empty (bar_dict : List (String × Bar)) (h : bar_dict.length = 0) :
    Bars.make bar_dict = Except.error BarsError.noBars := by
  cases bar_dict with
  | nil => rfl
  | cons p rest => simp at h

/-- Witness for C7 at the empty mapping. -/
theorem bars_make_empty_witness :
    ([] : List (String × Bar)).length = 0 ∧
    Bars.make ([] : List (String × Bar)) = Except.error BarsError.noBars :=
  ⟨rfl, bars_make_empty [] rfl⟩

/-- Claim C8: indexed lookup returns the stored Bar for a present symbol
and raises KeyError for an absent one; get_bar returns the stored Bar for
a present symbol and none for an absent one, never failing. -/
theorem bars_lookup_bar (bs : Bars) (symbol : String) (b : Bar) :
    (bs.get_bar symbol = some b →
      (symbol, b) ∈ bs.bar_dict ∧ bs.getItem symbol = Except.ok b) ∧
    (symbol ∈ bs.get_symbols → (bs.get_bar symbol).isSome = true) ∧
    (symbol ∉ bs.get_symbols →
      bs.get_bar symbol = none ∧
      bs.getItem symbol = Except.error (KeyErr.keyError symbol)) := by
  refine ⟨?_, ?_, ?_⟩
  · intro h
    have hd : dictGet symbol bs.bar_dict = some b := h
    exact ⟨dictGet_mem _ _ _ hd, by simp [Bars.getItem, hd]⟩
  · intro hmem
    have : ¬(dictGet symbol bs.bar_dict = none) := by
      rw [dictGet_eq_none_iff]
      simpa [Bars.get_symbols] using hmem
    cases hg : dictGet symbol bs.bar_dict with
    | none => exact absurd hg this
    | some v => simp [Bars.get_bar, hg]
  · intro hmem
    have hnone : dictGet symbol bs.bar_dict = none := by
      rw [dictGet_eq_none_iff]
      simpa [Bars.get_symbols] using hmem
    exact ⟨hnone, by simp [Bars.getItem, hnone]⟩

/-- Witness for C8: present and absent symbols on a concrete Bars. -/
theorem bars_lookup_bar_witness :
    (Bars.get_bar { bar_dict := [("AAPL", sampleBar 0)], date_time := 0 } "AAPL" =
        some (sampleBar 0) ∧
     (("AAPL", sampleBar 0) ∈
        ({ bar_dict := [("AAPL", sampleBar 0)], date_time := 0 } : Bars).bar_dict ∧
      Bars.getItem { bar_dict := [("AAPL", sampleBar 0)], date_time := 0 } "AAPL" =
        Except.ok (sampleBar 0))) ∧
    ("GOOG" ∉ Bars.get_symbols { bar_dict := [("AAPL", sampleBar 0)], date_time := 0 } ∧
     (Bars.get_bar { bar_dict := [("AAPL", sampleBar 0)], date_time := 0 } "GOOG" = none ∧
      Bars.getItem { bar_dict := [("AAPL", sampleBar 0)], date_time := 0 } "GOOG" =
        Except.error (KeyErr.keyError "GOOG"))) :=
  ⟨⟨rfl, (bars_lookup_bar { bar_dict := [("AAPL", sampleBar 0)], date_time := 0 }
      "AAPL" (sampleBar 0)).1 rfl⟩,
   ⟨by decide, (bars_lookup_bar { bar_dict := [("AAPL", sampleBar 0)], date_time := 0 }
      "GOOG" (sampleBar 0)).2.2 (by decide)⟩⟩

/-- Claim C9: for every entry of the token-to-name table, name_of is
defined and token_of inverts it; for every entry of the name-to-token
table, token_of is defined and name_of inverts it, so the two tables are
exact inverses over the nine tokens. -/
theorem freq_roundtrip :
    (∀ p ∈ FrequencyToStr, freqName p.1 = some p.2 ∧ freqToken p.2 = some p.1) ∧
    (∀ q ∈ StrToFrequency, freqToken q.1 = some q.2 ∧ freqName q.2 = some q.1) := by
  constructor <;> intro p hp <;> fin_cases hp <;> exact ⟨rfl, rfl⟩

/-- Witness for C9 at the MINUTE token and its name. -/
theorem freq_roundtrip_witness :
    ((Frequency.MINUTE, "minute") ∈ FrequencyToStr ∧
     freqName Frequency.MINUTE = some "minute" ∧
     freqToken "minute" = some Frequency.MINUTE) ∧
    (("minute", Frequency.MINUTE) ∈ StrToFrequency ∧
     freqToken "minute" = some Frequency.MINUTE ∧
     freqName Frequency.MINUTE = some "minute") :=
  ⟨⟨List.mem_cons_self _ _,
    freq_roundtrip.1 (Frequency.MINUTE, "minute") (List.mem_cons_self _ _)⟩,
   ⟨List.mem_cons_self _ _,
    freq_roundtrip.2 ("minute", Frequency.MINUTE) (List.mem_cons_self _ _)⟩⟩

/-- Claim C10: comparing a Bar with any non-Bar value yields false rather
than failing, and the inequality operation is exactly the boolean negation
of the equality operation. -/
theorem bar_eq_nonbar_ne (b : Bar) (tag : String) (x : PyVal) :
    b.eqPy (PyVal.nonBar tag) = false ∧ b.nePy x = !(b.eqPy x) :=
  ⟨rfl, rfl⟩

end PyTradeLib
